import Mathlib

/-!
# Verification of the IoT HVAC expansion-module server core

Shallow embedding of `src/server/server.py` (a Flask server): the in-memory
records `latest_data`, `hvac_settings`, `schedule_settings`, the CSV reading
log, and the handlers `receive_data`, `update_hvac`, `update_schedule`,
`get_schedule_status`, `get_history`.

Python JSON values are modelled by `Val` (JSON floats do not occur in the
claims and are not modelled).  A Python dict field holding `None` is
`Val.vNull`; a JSON object key that may be absent is an `Option Val`
(`none` = key absent, `some .vNull` = key present with value `null`).
-/

/-- A JSON / Python value as it appears in the server's dicts. -/
inductive Val where
  | vNull : Val
  | vBool : Bool → Val
  | vInt : Int → Val
  | vStr : String → Val
deriving DecidableEq, Repr

/-- Python `dict.get(key)`: an absent key yields `None`; a present `null`
is already `None` after JSON parsing.  Both collapse to `Val.vNull`. -/
def pyGet (v : Option Val) : Val := v.getD Val.vNull

/-- Python `int(x)` on a JSON value: `none` means the call raises
(`TypeError` on `None`, `ValueError` on a non-numeric string).  String
parsing is approximated by `String.toInt?` (Python additionally strips
whitespace and underscores; no claim depends on that fringe). -/
def pyInt : Val → Option Int
  | Val.vInt n => some n
  | Val.vBool b => some (if b then 1 else 0)
  | Val.vStr s => s.toInt?
  | Val.vNull => none

/-- Python `bool(x)` truthiness on a JSON value. -/
def pyBool : Val → Bool
  | Val.vNull => false
  | Val.vBool b => b
  | Val.vInt n => n != 0
  | Val.vStr s => s != ""

/-- The `hvac_settings` dict (server.py lines 21-29).  The `source` key is
absent from the initial dict and only added by the first write, hence
`Option Val`. -/
structure HvacSettings where
  power : Val
  set_temp : Val
  mode : Val
  fan_speed : Val
  timer : Val
  swing : Val
  timestamp : Val
  source : Option Val
deriving DecidableEq, Repr

/-- Initial `hvac_settings`: every field `None`, no `source` key. -/
def hvac_settings0 : HvacSettings :=
  { power := Val.vNull, set_temp := Val.vNull, mode := Val.vNull
  , fan_speed := Val.vNull, timer := Val.vNull, swing := Val.vNull
  , timestamp := Val.vNull, source := none }

/-- The `latest_data` dict (server.py lines 14-18). -/
structure LatestData where
  temperature : Val
  humidity : Val
  timestamp : Val
deriving DecidableEq, Repr

/-- Initial `latest_data`: all `None`. -/
def latest_data0 : LatestData :=
  { temperature := Val.vNull, humidity := Val.vNull, timestamp := Val.vNull }

/-- The `hvac` snapshot object inside a device POST to `/api/data`
(server.py lines 77-87); every key optional, read with `.get`. -/
structure HvacSnap where
  power : Option Val
  set_temp : Option Val
  mode : Option Val
  fan_speed : Option Val
  timer : Option Val
  swing : Option Val
deriving DecidableEq, Repr

/-- The JSON body of a web POST to `/api/hvac/update` (server.py
lines 117-133); presence tested with `'key' in data`. -/
structure HvacReq where
  power : Option Val
  set_temp : Option Val
  mode : Option Val
  fan_speed : Option Val
  timer : Option Val
  swing : Option Val
deriving DecidableEq, Repr

/-- The JSON body of a device POST to `/api/data` (server.py lines 62-77). -/
structure IngestReq where
  temperature : Option Val
  humidity : Option Val
  hvac : Option HvacSnap
deriving DecidableEq, Repr

/-- One row of the CSV reading log (after the header). -/
structure Row where
  timestamp : String
  temperature : Val
  humidity : Val
deriving DecidableEq, Repr

/-- An HTTP response as far as the claims observe it: 200 success,
400 with the validation message, or 500 (the outer `except` path,
carrying `str(e)`). -/
inductive Resp where
  | ok200 : Resp
  | err400 : String → Resp
  | err500 : String → Resp
deriving DecidableEq, Repr

/-- The server's mutable state touched by `/api/data`: the latest-reading
slot, the HVAC settings record, and the CSV log contents (rows after the
header). -/
structure ServerState where
  latest : LatestData
  hvac : HvacSettings
  log : List Row
deriving DecidableEq, Repr

/-- server.py lines 79-87: merging a device `hvac` snapshot into
`hvac_settings`.  Every key is assigned from `hvac.get(key)`, so a key
absent from the snapshot overwrites the stored field with `None`; the
prior settings are not consulted. -/
def applySnapshot (h : HvacSnap) (ts : String) (_s : HvacSettings) : HvacSettings :=
  { power := pyGet h.power
  , set_temp := pyGet h.set_temp
  , mode := pyGet h.mode
  , fan_speed := pyGet h.fan_speed
  , timer := pyGet h.timer
  , swing := pyGet h.swing
  , timestamp := Val.vStr ts
  , source := some (Val.vStr "arduino") }

/-- server.py lines 58-98, `receive_data`: the `/api/data` handler.
`ts` is `datetime.now().strftime(...)`; `appendRes` is the outcome the
CSV append would have (`.error e` = the `open`/`writerow` raised, caught
by the outer `except` as a 500). -/
def receive_data (data : IngestReq) (ts : String) (appendRes : Except String Unit)
    (st : ServerState) : ServerState × Resp :=
  if pyGet data.temperature == Val.vNull || pyGet data.humidity == Val.vNull then
    (st, Resp.err400 "Missing temperature or humidity")
  else
    let latest' : LatestData :=
      { temperature := pyGet data.temperature
      , humidity := pyGet data.humidity
      , timestamp := Val.vStr ts }
    let hvac' : HvacSettings :=
      match data.hvac with
      | some h => applySnapshot h ts st.hvac
      | none => st.hvac
    let st' : ServerState := { st with latest := latest', hvac := hvac' }
    match appendRes with
    | Except.ok _ =>
        ({ st' with log := st.log ++ [⟨ts, pyGet data.temperature, pyGet data.humidity⟩] },
         Resp.ok200)
    | Except.error e => (st', Resp.err500 e)

/-- server.py lines 117-118: the `power` merge, which precedes the
`set_temp` validation in `update_hvac`. -/
def applyPower (data : HvacReq) (s : HvacSettings) : HvacSettings :=
  match data.power with
  | some v => { s with power := v }
  | none => s

/-- server.py lines 126-136: the field merges after the `set_temp`
validation succeeded (or `set_temp` was absent), then the timestamp
and `source = 'web'` stamps. -/
def finishWeb (data : HvacReq) (now : String) (s : HvacSettings) : HvacSettings :=
  let s1 := match data.mode with
    | some v => { s with mode := v }
    | none => s
  let s2 := match data.fan_speed with
    | some v => { s1 with fan_speed := v }
    | none => s1
  let s3 := match data.timer with
    | some v => { s2 with timer := v }
    | none => s2
  let s4 := match data.swing with
    | some v => { s3 with swing := v }
    | none => s3
  { s4 with timestamp := Val.vStr now, source := some (Val.vStr "web") }

/-- server.py lines 110-141, `update_hvac`: the `/api/hvac/update`
handler.  Fields are merged in source order; `set_temp` is converted
with `int(...)` (a raising conversion is the 500 path) and range-checked;
an out-of-range value returns 400 with the merges made so far kept. -/
def update_hvac (data : HvacReq) (now : String) (s : HvacSettings) :
    HvacSettings × Resp :=
  let s1 := applyPower data s
  match data.set_temp with
  | none => (finishWeb data now s1, Resp.ok200)
  | some v =>
    match pyInt v with
    | none => (s1, Resp.err500 "int() conversion failed")
    | some t =>
      if 16 ≤ t && t ≤ 30 then
        (finishWeb data now { s1 with set_temp := Val.vInt t }, Resp.ok200)
      else
        (s1, Resp.err400 "Temperature must be between 16°C and 30°C")

/-- The spec's invariant on a stored `set_temp` value: unset (`None`) or
an integer in [16,30]. -/
def setTempOk : Val → Bool
  | Val.vNull => true
  | Val.vInt n => 16 ≤ n && n ≤ 30
  | _ => false

/-- The `schedule_settings` dict (server.py lines 32-37). -/
structure ScheduleSettings where
  enabled : Bool
  start_time : String
  end_time : String
  timestamp : Val
deriving DecidableEq, Repr

/-- Initial `schedule_settings`. -/
def schedule_settings0 : ScheduleSettings :=
  { enabled := false, start_time := "23:00", end_time := "05:00"
  , timestamp := Val.vNull }

/-- server.py lines 159-174 use `datetime.strptime(x, '%H:%M')` as the
validator.  CPython compiles `'%H:%M'` to the anchored, fully-consumed
regex `(2[0-3]|[0-1]\d|\d):([0-5]\d|\d)`, so the hour and minute may be
one OR two digits (`"9:05"` is accepted).  `\d` is modelled as an ASCII
digit (Unicode decimal digits, which Python's `re` would also accept,
are not modelled).  `true` = `strptime` succeeds. -/
def strptimeHM : String → Bool :=
  fun s =>
    let isD : Char → Bool := fun c => 48 ≤ c.toNat && c.toNat ≤ 57
    let hour2 : Char → Char → Bool := fun a b =>
      ((a == '0' || a == '1') && isD b) ||
        (a == '2' && (48 ≤ b.toNat && b.toNat ≤ 51))
    let min2 : Char → Char → Bool := fun c d =>
      (48 ≤ c.toNat && c.toNat ≤ 53) && isD d
    match s.data with
    | [a, b, x, c, d] => x == ':' && hour2 a b && min2 c d
    | [a, b, c, d] =>
        (b == ':' && isD a && min2 c d) || (c == ':' && hour2 a b && isD d)
    | [a, x, c] => x == ':' && isD a && isD c
    | _ => false

/-- An ASCII digit, by code point (48 = `'0'`, 57 = `'9'`). -/
def isDigitCh (c : Char) : Bool := 48 ≤ c.toNat && c.toNat ≤ 57

/-- Stated from the spec's words, for comparison with the code's
validator `strptimeHM`: a "valid 24-hour HH:MM string" — exactly five
characters `HH:MM`, zero-padded, hour 00-23, minute 00-59. -/
def specHHMM : String → Bool :=
  fun s =>
    match s.data with
    | [a, b, x, c, d] =>
        (x == ':') &&
        (isDigitCh a && isDigitCh b && isDigitCh c && isDigitCh d) &&
        decide ((a.toNat - 48) * 10 + (b.toNat - 48) ≤ 23) &&
        decide ((c.toNat - 48) * 10 + (d.toNat - 48) ≤ 59)
    | _ => false

/-- The minute-of-day denoted by a zero-padded `HH:MM` string (0 on any
other shape; the middle character is not inspected). -/
def toMinutes (s : String) : Nat :=
  match s.data with
  | [a, b, _, c, d] =>
      ((a.toNat - 48) * 10 + (b.toNat - 48)) * 60 +
        (c.toNat - 48) * 10 + (d.toNat - 48)
  | _ => 0

/-- CPython `str < str` on the underlying code-point lists:
lexicographic, shorter prefix first. -/
def pyStrLtAux : List Char → List Char → Bool
  | [], [] => false
  | [], _ :: _ => true
  | _ :: _, [] => false
  | a :: as, b :: bs =>
      if a.toNat < b.toNat then true
      else if b.toNat < a.toNat then false
      else pyStrLtAux as bs

/-- Python `a < b` on strings (code-point lexicographic). -/
def pyStrLt (a b : String) : Bool := pyStrLtAux a.data b.data

/-- Python `a <= b` on strings: the order is total, so `a <= b` iff
`not (b < a)`. -/
def pyStrLe (a b : String) : Bool := !pyStrLt b a

/-- The JSON body of a POST to `/api/schedule/update` (server.py
lines 159-174). -/
structure SchedReq where
  enabled : Option Val
  start_time : Option Val
  end_time : Option Val
deriving DecidableEq, Repr

/-- server.py lines 159-160: the `enabled` merge (`bool(data['enabled'])`),
which precedes the time-string validations in `update_schedule`. -/
def applyEnabled (req : SchedReq) (s : ScheduleSettings) : ScheduleSettings :=
  match req.enabled with
  | some v => { s with enabled := pyBool v }
  | none => s

/-- server.py lines 168-178: the `end_time` branch of `update_schedule`
and the final timestamp stamp.  A non-string value makes `strptime`
raise `TypeError`, which the inner `except ValueError` does not catch:
the outer handler answers 500. -/
def updateSchedEnd (req : SchedReq) (now : String) (s : ScheduleSettings) :
    ScheduleSettings × Resp :=
  match req.end_time with
  | none => ({ s with timestamp := Val.vStr now }, Resp.ok200)
  | some (Val.vStr t) =>
      if strptimeHM t then
        ({ s with end_time := t, timestamp := Val.vStr now }, Resp.ok200)
      else
        (s, Resp.err400 "Invalid end_time format. Use HH:MM (24-hour)")
  | some _ => (s, Resp.err500 "strptime() argument 1 must be str")

/-- server.py lines 153-181, `update_schedule`: the `/api/schedule/update`
handler.  `enabled` is coerced with `bool(...)` before the time fields
are validated; each provided time string goes through `strptime` and an
invalid one returns 400 with the earlier merges kept. -/
def update_schedule (req : SchedReq) (now : String) (s : ScheduleSettings) :
    ScheduleSettings × Resp :=
  let s1 := applyEnabled req s
  match req.start_time with
  | none => updateSchedEnd req now s1
  | some (Val.vStr t) =>
      if strptimeHM t then
        updateSchedEnd req now { s1 with start_time := t }
      else
        (s1, Resp.err400 "Invalid start_time format. Use HH:MM (24-hour)")
  | some _ => (s1, Resp.err500 "strptime() argument 1 must be str")

/-- The JSON answered by `/api/schedule/status` as far as the claims
observe it (`should_be_on` is `None` when the schedule is disabled). -/
structure ScheduleStatus where
  schedule_active : Bool
  should_be_on : Option Bool
deriving DecidableEq, Repr

/-- server.py lines 183-214, `get_schedule_status`: compares the stored
`HH:MM` strings with Python string comparison (on zero-padded `HH:MM`
strings this coincides with time-of-day order); `current_time` is
`datetime.now().strftime('%H:%M')`. -/
def get_schedule_status (s : ScheduleSettings) (current_time : String) :
    ScheduleStatus :=
  if !s.enabled then
    { schedule_active := false, should_be_on := none }
  else
    let start := s.start_time
    let e := s.end_time
    let should : Bool :=
      if pyStrLt e start then
        pyStrLe start current_time || pyStrLt current_time e
      else
        pyStrLe start current_time && pyStrLt current_time e
    { schedule_active := true, should_be_on := some should }

/-!
## Interleaving model for the unlocked `hvac_settings` writes

The only lock in server.py is `csv_lock` (line 11), acquired around the CSV
file append (lines 90-93) and the CSV read (lines 224-229).  The
`hvac_settings` dict mutations in `receive_data` (lines 79-87) and
`update_hvac` (lines 117-136) take no lock: each single dict assignment is
atomic (CPython), but the group is not, so two handlers running
concurrently may interleave their per-field assignments.  We model a
handler's mutation as its list of atomic field writes and consider every
interleaving of two such lists.
-/

/-- A key of the `hvac_settings` dict. -/
inductive HvacField where
  | power
  | set_temp
  | mode
  | fan_speed
  | timer
  | swing
  | timestamp
  | source
deriving DecidableEq, Repr

/-- One atomic dict assignment `hvac_settings[field] = value`. -/
structure WriteAct where
  field : HvacField
  value : Val
deriving DecidableEq, Repr

/-- Execute one atomic assignment. -/
def setField (s : HvacSettings) (a : WriteAct) : HvacSettings :=
  match a.field with
  | HvacField.power => { s with power := a.value }
  | HvacField.set_temp => { s with set_temp := a.value }
  | HvacField.mode => { s with mode := a.value }
  | HvacField.fan_speed => { s with fan_speed := a.value }
  | HvacField.timer => { s with timer := a.value }
  | HvacField.swing => { s with swing := a.value }
  | HvacField.timestamp => { s with timestamp := a.value }
  | HvacField.source => { s with source := some a.value }

/-- Execute a sequence of atomic assignments in order. -/
def runWrites (s : HvacSettings) (l : List WriteAct) : HvacSettings :=
  l.foldl setField s

/-- The assignment sequence of the device-snapshot merge, server.py
lines 79-87 (in source order). -/
def snapshotWrites (h : HvacSnap) (ts : String) : List WriteAct :=
  [ ⟨HvacField.power, pyGet h.power⟩
  , ⟨HvacField.set_temp, pyGet h.set_temp⟩
  , ⟨HvacField.mode, pyGet h.mode⟩
  , ⟨HvacField.fan_speed, pyGet h.fan_speed⟩
  , ⟨HvacField.timer, pyGet h.timer⟩
  , ⟨HvacField.swing, pyGet h.swing⟩
  , ⟨HvacField.timestamp, Val.vStr ts⟩
  , ⟨HvacField.source, Val.vStr "arduino"⟩ ]

/-- The assignment sequence of `update_hvac` on its fully-successful
path (every provided field merges, server.py lines 117-136, in source
order), ending with the timestamp and `source = 'web'` stamps. -/
def webWrites (data : HvacReq) (now : String) : List WriteAct :=
  (match data.power with
    | some v => [⟨HvacField.power, v⟩]
    | none => []) ++
  (match data.set_temp with
    | some v =>
        match pyInt v with
        | some t => [⟨HvacField.set_temp, Val.vInt t⟩]
        | none => []
    | none => []) ++
  (match data.mode with
    | some v => [⟨HvacField.mode, v⟩]
    | none => []) ++
  (match data.fan_speed with
    | some v => [⟨HvacField.fan_speed, v⟩]
    | none => []) ++
  (match data.timer with
    | some v => [⟨HvacField.timer, v⟩]
    | none => []) ++
  (match data.swing with
    | some v => [⟨HvacField.swing, v⟩]
    | none => []) ++
  [⟨HvacField.timestamp, Val.vStr now⟩, ⟨HvacField.source, Val.vStr "web"⟩]

/-- `Interleaving as bs cs`: `cs` is one possible order in which the two
unlocked writers' atomic assignments `as` and `bs` can execute
concurrently (each writer's own order preserved). -/
inductive Interleaving {α : Type} : List α → List α → List α → Prop
  | nil : Interleaving [] [] []
  | left {a : α} {as bs cs : List α} :
      Interleaving as bs cs → Interleaving (a :: as) bs (a :: cs)
  | right {b : α} {as bs cs : List α} :
      Interleaving as bs cs → Interleaving as (b :: bs) (b :: cs)

/-- server.py lines 219-232, `get_history`: the `/api/history` handler.
`fileExists` is `os.path.exists(DATA_FILE)`; `readRes` is the outcome of
opening and reading the CSV rows (`.error e` = the read raised — there is
no `try`/`except` in this handler, so the exception propagates).
On success the handler answers `history[-50:][::-1]`. -/
def get_history (fileExists : Bool) (readRes : Except String (List Row)) :
    Except String (List Row) :=
  if fileExists then
    match readRes with
    | Except.ok l => Except.ok ((l.drop (l.length - 50)).reverse)
    | Except.error e => Except.error e
  else
    Except.ok []

/-- A concrete device snapshot (all fields reported), used to exhibit an
interleaving. -/
def snapA : HvacSnap :=
  ⟨some (Val.vStr "on"), some (Val.vInt 22), some (Val.vStr "cool"),
   some (Val.vStr "auto"), some (Val.vInt 0), some (Val.vStr "off")⟩

/-- A concrete web command (set_temp 25 only), used to exhibit an
interleaving. -/
def webB : HvacReq := ⟨none, some (Val.vInt 25), none, none, none, none⟩

/-- A concrete interleaved execution of `snapshotWrites snapA "t1"` and
`webWrites webB "t2"`: the web writer runs between the snapshot writer's
set_temp write and its remaining writes. -/
def mixedTrace : List WriteAct :=
  [ ⟨HvacField.power, Val.vStr "on"⟩
  , ⟨HvacField.set_temp, Val.vInt 22⟩
  , ⟨HvacField.set_temp, Val.vInt 25⟩
  , ⟨HvacField.timestamp, Val.vStr "t2"⟩
  , ⟨HvacField.source, Val.vStr "web"⟩
  , ⟨HvacField.mode, Val.vStr "cool"⟩
  , ⟨HvacField.fan_speed, Val.vStr "auto"⟩
  , ⟨HvacField.timer, Val.vInt 0⟩
  , ⟨HvacField.swing, Val.vStr "off"⟩
  , ⟨HvacField.timestamp, Val.vStr "t1"⟩
  , ⟨HvacField.source, Val.vStr "arduino"⟩ ]

/-!
## Helper lemmas
-/

/-- On two five-character digit lists shaped like `HH:MM` (minute part at
most 59), the code-point lexicographic comparison agrees with the
numeric minute-of-day comparison. -/
theorem pyStrLtAux_hhmm (a1 a2 a3 a4 b1 b2 b3 b4 : Char)
    (ha1 : 48 ≤ a1.toNat) (ha1' : a1.toNat ≤ 57)
    (ha2 : 48 ≤ a2.toNat) (ha2' : a2.toNat ≤ 57)
    (ha3 : 48 ≤ a3.toNat) (ha3' : a3.toNat ≤ 57)
    (ha4 : 48 ≤ a4.toNat) (ha4' : a4.toNat ≤ 57)
    (hb1 : 48 ≤ b1.toNat) (hb1' : b1.toNat ≤ 57)
    (hb2 : 48 ≤ b2.toNat) (hb2' : b2.toNat ≤ 57)
    (hb3 : 48 ≤ b3.toNat) (hb3' : b3.toNat ≤ 57)
    (hb4 : 48 ≤ b4.toNat) (hb4' : b4.toNat ≤ 57)
    (hma : (a3.toNat - 48) * 10 + (a4.toNat - 48) ≤ 59)
    (hmb : (b3.toNat - 48) * 10 + (b4.toNat - 48) ≤ 59) :
    pyStrLtAux [a1, a2, ':', a3, a4] [b1, b2, ':', b3, b4] =
      decide (((a1.toNat - 48) * 10 + (a2.toNat - 48)) * 60 +
                (a3.toNat - 48) * 10 + (a4.toNat - 48) <
              ((b1.toNat - 48) * 10 + (b2.toNat - 48)) * 60 +
                (b3.toNat - 48) * 10 + (b4.toNat - 48)) := by
  simp only [pyStrLtAux, lt_self_iff_false, if_false]
  split_ifs <;>
    first
      | exact (decide_eq_true (by omega)).symm
      | exact (decide_eq_false (by omega)).symm

/-- A string satisfying `specHHMM` has the five-character `HH:MM` shape,
with digit bounds and its `toMinutes` value exposed. -/
theorem specHHMM_shape {s : String} (h : specHHMM s = true) :
    ∃ a b c d : Char, s.data = [a, b, ':', c, d] ∧
      (48 ≤ a.toNat ∧ a.toNat ≤ 57) ∧ (48 ≤ b.toNat ∧ b.toNat ≤ 57) ∧
      (48 ≤ c.toNat ∧ c.toNat ≤ 57) ∧ (48 ≤ d.toNat ∧ d.toNat ≤ 57) ∧
      (c.toNat - 48) * 10 + (d.toNat - 48) ≤ 59 ∧
      toMinutes s = ((a.toNat - 48) * 10 + (b.toNat - 48)) * 60 +
        (c.toNat - 48) * 10 + (d.toNat - 48) := by
  rcases hd : s.data with _ | ⟨a, _ | ⟨b, _ | ⟨x, _ | ⟨c, _ | ⟨d, _ | ⟨e, t⟩⟩⟩⟩⟩⟩ <;>
    simp only [specHHMM, hd, isDigitCh, Bool.and_eq_true, beq_iff_eq,
      decide_eq_true_eq, and_assoc] at h
  all_goals try exact absurd h (by decide)
  obtain ⟨hx, h1, h2, h3, h4, h5, h6, h7, h8, hh, hm⟩ := h
  subst hx
  exact ⟨a, b, c, d, rfl, ⟨h1, h2⟩, ⟨h3, h4⟩, ⟨h5, h6⟩, ⟨h7, h8⟩, hm,
    by simp only [toMinutes, hd]⟩

/-- On zero-padded `HH:MM` strings, Python string `<` is minute-of-day
`<`. -/
theorem pyStrLt_minutes {a b : String} (ha : specHHMM a = true)
    (hb : specHHMM b = true) :
    pyStrLt a b = decide (toMinutes a < toMinutes b) := by
  obtain ⟨a1, a2, a3, a4, hda, ⟨ha1, ha1'⟩, ⟨ha2, ha2'⟩, ⟨ha3, ha3'⟩,
    ⟨ha4, ha4'⟩, hma, hMa⟩ := specHHMM_shape ha
  obtain ⟨b1, b2, b3, b4, hdb, ⟨hb1, hb1'⟩, ⟨hb2, hb2'⟩, ⟨hb3, hb3'⟩,
    ⟨hb4, hb4'⟩, hmb, hMb⟩ := specHHMM_shape hb
  rw [pyStrLt, hda, hdb, hMa, hMb]
  exact pyStrLtAux_hhmm a1 a2 a3 a4 b1 b2 b3 b4 ha1 ha1' ha2 ha2' ha3 ha3'
    ha4 ha4' hb1 hb1' hb2 hb2' hb3 hb3' hb4 hb4' hma hmb

/-- On zero-padded `HH:MM` strings, Python string `<=` is minute-of-day
`≤`. -/
theorem pyStrLe_minutes {a b : String} (ha : specHHMM a = true)
    (hb : specHHMM b = true) :
    pyStrLe a b = decide (toMinutes a ≤ toMinutes b) := by
  rw [pyStrLe, pyStrLt_minutes hb ha, ← decide_not]
  exact decide_eq_decide.mpr (by omega)

/-- The `power` merge never touches `set_temp`. -/
theorem applyPower_set_temp (data : HvacReq) (s : HvacSettings) :
    (applyPower data s).set_temp = s.set_temp := by
  unfold applyPower
  cases data.power <;> rfl

/-- The merges after the `set_temp` validation never touch `set_temp`. -/
theorem finishWeb_set_temp (data : HvacReq) (now : String) (s : HvacSettings) :
    (finishWeb data now s).set_temp = s.set_temp := by
  unfold finishWeb
  cases data.mode <;> cases data.fan_speed <;> cases data.timer <;>
    cases data.swing <;> rfl

/-- Sanity: executing the device snapshot's atomic assignment sequence
uninterrupted is exactly the snapshot merge of `receive_data`. -/
theorem runWrites_snapshotWrites (h : HvacSnap) (ts : String)
    (s : HvacSettings) :
    runWrites s (snapshotWrites h ts) = applySnapshot h ts s := rfl

/-!
## Claims
-/

/-- C4: for every enabled schedule whose stored times and the current
time are (zero-padded) HH:MM values, `get_schedule_status` reports: in a
same-day window (start ≤ end, minute-of-day order) active iff
start ≤ now < end; in an overnight window (start > end) active iff
now ≥ start or now < end; and start = end falls under the same-day
branch as a zero-length window that is never active. -/
theorem get_schedule_status_window_correct (sch : ScheduleSettings)
    (now : String) (hen : sch.enabled = true)
    (hs : specHHMM sch.start_time = true)
    (he : specHHMM sch.end_time = true) (hn : specHHMM now = true) :
    (get_schedule_status sch now).schedule_active = true ∧
    (toMinutes sch.start_time ≤ toMinutes sch.end_time →
      (get_schedule_status sch now).should_be_on =
        some (decide (toMinutes sch.start_time ≤ toMinutes now ∧
          toMinutes now < toMinutes sch.end_time))) ∧
    (toMinutes sch.end_time < toMinutes sch.start_time →
      (get_schedule_status sch now).should_be_on =
        some (decide (toMinutes sch.start_time ≤ toMinutes now ∨
          toMinutes now < toMinutes sch.end_time))) ∧
    (sch.start_time = sch.end_time →
      (get_schedule_status sch now).should_be_on = some false) := by
  unfold get_schedule_status
  rw [hen]
  simp only [Bool.not_true, Bool.false_eq_true, if_false,
    pyStrLt_minutes he hs, pyStrLe_minutes hs hn, pyStrLt_minutes hn he,
    decide_eq_true_eq]
  refine ⟨trivial, ?_, ?_, ?_⟩
  · intro hle
    rw [if_neg (by omega)]
    simp only [Bool.decide_and]
  · intro hlt
    rw [if_pos hlt]
    simp only [Bool.decide_or]
  · intro heq
    have hmeq : toMinutes sch.start_time = toMinutes sch.end_time := by
      rw [heq]
    rw [if_neg (by omega)]
    simp only [Option.some.injEq]
    rw [← Bool.decide_and]
    exact decide_eq_false (by omega)

/-- Witness for C4: the spec's own overnight example — start 23:00,
end 05:00, now 23:30 — is active. -/
theorem get_schedule_status_window_correct_witness :
    (get_schedule_status ⟨true, "23:00", "05:00", Val.vNull⟩
      "23:30").should_be_on = some true := by
  have h := (get_schedule_status_window_correct
    ⟨true, "23:00", "05:00", Val.vNull⟩ "23:30" rfl (by decide) (by decide)
    (by decide)).2.2.1 (by decide)
  rw [h]
  decide

/-- C1 counterexample: a device-posted reading whose hvac snapshot
carries set_temp = 31 passes the write boundary and 31 (outside [16,30])
is stored in the settings record — the snapshot path has no range
check. -/
theorem device_snapshot_stores_out_of_range_set_temp :
    ((receive_data ⟨some (Val.vInt 24), some (Val.vInt 50),
        some ⟨some (Val.vStr "on"), some (Val.vInt 31), none, none, none, none⟩⟩
      "2025-01-01 00:00:00" (Except.ok ())
      ⟨latest_data0, hvac_settings0, []⟩).1.hvac.set_temp = Val.vInt 31) ∧
    setTempOk (Val.vInt 31) = false := by
  exact ⟨rfl, rfl⟩

/-- C1 (amended): the [16,30] bound on the stored set_temp is enforced
only on the web-command path — `update_hvac` preserves the invariant
(whatever it stores in set_temp is a validated integer in range, or the
prior value); device-posted snapshots store set_temp unvalidated. -/
theorem update_hvac_preserves_setTempOk (data : HvacReq) (now : String)
    (s : HvacSettings) (h : setTempOk s.set_temp = true) :
    setTempOk (update_hvac data now s).1.set_temp = true := by
  cases hst : data.set_temp with
  | none =>
      simp only [update_hvac, hst]
      rw [finishWeb_set_temp, applyPower_set_temp]
      exact h
  | some v =>
      cases hpi : pyInt v with
      | none =>
          simp only [update_hvac, hst, hpi]
          rw [applyPower_set_temp]
          exact h
      | some t =>
          simp only [update_hvac, hst, hpi]
          by_cases hr : (16 ≤ t && t ≤ 30) = true
          · rw [if_pos hr]
            simp only
            rw [finishWeb_set_temp]
            exact hr
          · rw [if_neg hr]
            simp only
            rw [applyPower_set_temp]
            exact h

/-- Witness for the amended C1: a web command setting 25 keeps the
invariant on the initial settings. -/
theorem update_hvac_preserves_setTempOk_witness :
    setTempOk hvac_settings0.set_temp = true ∧
    setTempOk (update_hvac ⟨none, some (Val.vInt 25), none, none, none, none⟩
      "t" hvac_settings0).1.set_temp = true :=
  ⟨by decide, update_hvac_preserves_setTempOk
    ⟨none, some (Val.vInt 25), none, none, none, none⟩ "t" hvac_settings0
    (by decide)⟩

/-- C2 counterexample: a web command with power = 'on' and set_temp = 31
is rejected with the validation error, yet the settings record is NOT
left unchanged — the power merge happened before the set_temp check. -/
theorem update_hvac_merges_power_before_rejecting :
    (update_hvac ⟨some (Val.vStr "on"), some (Val.vInt 31), none, none, none,
        none⟩ "2025-01-01 00:00:00" hvac_settings0).2 =
      Resp.err400 "Temperature must be between 16°C and 30°C" ∧
    (update_hvac ⟨some (Val.vStr "on"), some (Val.vInt 31), none, none, none,
        none⟩ "2025-01-01 00:00:00" hvac_settings0).1 ≠ hvac_settings0 := by
  exact ⟨rfl, by decide⟩

/-- C2 (amended): a web command whose set_temp converts to an integer
outside [16,30] is rejected with 400, and every field processed after
the check — set_temp itself, mode, fan_speed, timer, swing, and the
timestamp/origin stamps — keeps its prior value; but the power field,
merged before the check, is applied (no full atomicity). -/
theorem update_hvac_out_of_range_rejected (data : HvacReq) (now : String)
    (s : HvacSettings) (v : Val) (t : Int) (hv : data.set_temp = some v)
    (hpi : pyInt v = some t) (hr : (16 ≤ t && t ≤ 30) = false) :
    update_hvac data now s =
      (applyPower data s,
       Resp.err400 "Temperature must be between 16°C and 30°C") := by
  simp only [update_hvac, hv, hpi]
  rw [if_neg (by simp [hr])]

/-- Witness for the amended C2 at set_temp = 31 over the initial
settings. -/
theorem update_hvac_out_of_range_rejected_witness :
    update_hvac ⟨some (Val.vStr "on"), some (Val.vInt 31), none, none, none,
        none⟩ "t" hvac_settings0 =
      (applyPower ⟨some (Val.vStr "on"), some (Val.vInt 31), none, none, none,
        none⟩ hvac_settings0,
       Resp.err400 "Temperature must be between 16°C and 30°C") :=
  update_hvac_out_of_range_rejected
    ⟨some (Val.vStr "on"), some (Val.vInt 31), none, none, none, none⟩
    "t" hvac_settings0 (Val.vInt 31) 31 rfl rfl rfl

/-- C3 counterexample: a reading whose snapshot provides only power
resets the previously stored mode ('cool') to None — absent fields do
not retain their prior values. -/
theorem snapshot_resets_absent_mode :
    ((receive_data ⟨some (Val.vInt 24), some (Val.vInt 50),
        some ⟨some (Val.vStr "on"), none, none, none, none, none⟩⟩
      "ts2" (Except.ok ())
      ⟨latest_data0, { hvac_settings0 with mode := Val.vStr "cool" },
        []⟩).1.hvac.mode = Val.vNull) ∧
    Val.vNull ≠ Val.vStr "cool" := by
  exact ⟨rfl, by decide⟩

/-- C3 (amended): the snapshot write is a full replace, not a partial
merge: after a valid reading carrying a snapshot, every HVAC field holds
the snapshot's value when present and None when absent, independent of
the prior record; timestamp and origin ('arduino') are stamped. -/
theorem receive_data_snapshot_full_replace (data : IngestReq) (ts : String)
    (ares : Except String Unit) (st : ServerState) (h : HvacSnap)
    (hh : data.hvac = some h)
    (hv : (pyGet data.temperature == Val.vNull ||
           pyGet data.humidity == Val.vNull) = false) :
    (receive_data data ts ares st).1.hvac =
      { power := pyGet h.power, set_temp := pyGet h.set_temp
      , mode := pyGet h.mode, fan_speed := pyGet h.fan_speed
      , timer := pyGet h.timer, swing := pyGet h.swing
      , timestamp := Val.vStr ts, source := some (Val.vStr "arduino") } := by
  simp only [receive_data, hh, hv, Bool.false_eq_true, if_false, applySnapshot]
  cases ares <;> rfl

/-- Witness for the amended C3: the concrete full-replace outcome of the
C3 scenario. -/
theorem receive_data_snapshot_full_replace_witness :
    (receive_data ⟨some (Val.vInt 24), some (Val.vInt 50),
        some ⟨some (Val.vStr "on"), none, none, none, none, none⟩⟩
      "ts2" (Except.ok ())
      ⟨latest_data0, { hvac_settings0 with mode := Val.vStr "cool" },
        []⟩).1.hvac =
      { power := Val.vStr "on", set_temp := Val.vNull, mode := Val.vNull
      , fan_speed := Val.vNull, timer := Val.vNull, swing := Val.vNull
      , timestamp := Val.vStr "ts2", source := some (Val.vStr "arduino") } := by
  exact receive_data_snapshot_full_replace _ "ts2" (Except.ok ()) _
    ⟨some (Val.vStr "on"), none, none, none, none, none⟩ rfl (by decide)

/-- Sanity: executing the concrete web command's atomic assignment
sequence uninterrupted is exactly what `update_hvac` stores for it. -/
theorem runWrites_webWrites_webB (s : HvacSettings) :
    runWrites s (webWrites webB "t2") = (update_hvac webB "t2" s).1 := rfl

/-- The concrete trace really is an interleaving of the two writers'
assignment sequences. -/
theorem mixedTrace_interleaving :
    Interleaving (snapshotWrites snapA "t1") (webWrites webB "t2")
      mixedTrace :=
  .left (.left (.right (.right (.right (.left (.left (.left (.left
    (.left (.left .nil))))))))))

/-- C5 counterexample: the snapshot writes and the web-command writes to
`hvac_settings` take no lock (`csv_lock` guards only the CSV file), and
this interleaving of the two produces a record that matches neither
serial execution order — a half-applied merge with the web set_temp
inside an otherwise device-stamped record. -/
theorem csv_lock_does_not_serialize_hvac_writes :
    Interleaving (snapshotWrites snapA "t1") (webWrites webB "t2")
      mixedTrace ∧
    runWrites hvac_settings0 mixedTrace ≠
      runWrites hvac_settings0
        (snapshotWrites snapA "t1" ++ webWrites webB "t2") ∧
    runWrites hvac_settings0 mixedTrace ≠
      runWrites hvac_settings0
        (webWrites webB "t2" ++ snapshotWrites snapA "t1") :=
  ⟨mixedTrace_interleaving, by decide, by decide⟩

/-- C5 (amended): only the CSV log accesses are serialized (by
`csv_lock`); the HvacSettings record is written with no lock, so there
EXISTS an interleaving of a device-origin snapshot write and a web
command whose final record differs from both serial orders (mixed
fields). -/
theorem hvac_interleaving_mixes_fields :
    ∃ (h : HvacSnap) (data : HvacReq) (t1 t2 : String)
      (tr : List WriteAct),
      Interleaving (snapshotWrites h t1) (webWrites data t2) tr ∧
      runWrites hvac_settings0 tr ≠
        runWrites hvac_settings0
          (snapshotWrites h t1 ++ webWrites data t2) ∧
      runWrites hvac_settings0 tr ≠
        runWrites hvac_settings0
          (webWrites data t2 ++ snapshotWrites h t1) :=
  ⟨snapA, webB, "t1", "t2", mixedTrace,
    .left (.left (.right (.right (.right (.left (.left (.left (.left
      (.left (.left .nil)))))))))), by decide, by decide⟩

/-- The `enabled` merge never touches `start_time`. -/
theorem applyEnabled_start (req : SchedReq) (s : ScheduleSettings) :
    (applyEnabled req s).start_time = s.start_time := by
  unfold applyEnabled
  cases req.enabled <;> rfl

/-- The `enabled` merge never touches `end_time`. -/
theorem applyEnabled_end (req : SchedReq) (s : ScheduleSettings) :
    (applyEnabled req s).end_time = s.end_time := by
  unfold applyEnabled
  cases req.enabled <;> rfl

/-- The `end_time` branch never touches `start_time`. -/
theorem updateSchedEnd_start (req : SchedReq) (now : String)
    (s : ScheduleSettings) :
    (updateSchedEnd req now s).1.start_time = s.start_time := by
  unfold updateSchedEnd
  split <;> first | rfl | (split <;> rfl)

/-- After the `end_time` branch, the stored `end_time` is unchanged or
passed the `strptime` check. -/
theorem updateSchedEnd_end_valid (req : SchedReq) (now : String)
    (s : ScheduleSettings) :
    (updateSchedEnd req now s).1.end_time = s.end_time ∨
      strptimeHM (updateSchedEnd req now s).1.end_time = true := by
  unfold updateSchedEnd
  split
  · exact Or.inl rfl
  · rename_i t heq
    by_cases h : strptimeHM t = true
    · rw [if_pos h]
      exact Or.inr h
    · rw [if_neg h]
      exact Or.inl rfl
  · exact Or.inl rfl

/-- C6 counterexample: a schedule update with start_time "9:05" (not a
24-hour HH:MM string — the hour is not zero-padded) is accepted by the
`strptime('%H:%M')` validation and stored. -/
theorem update_schedule_accepts_nonpadded_time :
    update_schedule ⟨none, some (Val.vStr "9:05"), none⟩ "now0"
      schedule_settings0 =
      ({ schedule_settings0 with
          start_time := "9:05",
          timestamp := Val.vStr "now0" }, Resp.ok200) ∧
    specHHMM "9:05" = false := by
  exact ⟨by decide, by decide⟩

/-- C6 (amended): after any schedule update, each stored time field
either kept its prior value or passed the code's `strptime('%H:%M')`
validation (hour 0-23, minute 0-59, each one OR two digits — not
necessarily zero-padded HH:MM); and a provided start_time string failing
that validation is rejected with 400, with neither time stored. -/
theorem update_schedule_time_validity (req : SchedReq) (now : String)
    (s : ScheduleSettings) :
    ((update_schedule req now s).1.start_time = s.start_time ∨
      strptimeHM (update_schedule req now s).1.start_time = true) ∧
    ((update_schedule req now s).1.end_time = s.end_time ∨
      strptimeHM (update_schedule req now s).1.end_time = true) ∧
    (∀ t : String, req.start_time = some (Val.vStr t) →
      strptimeHM t = false →
      (update_schedule req now s).2 =
        Resp.err400 "Invalid start_time format. Use HH:MM (24-hour)" ∧
      (update_schedule req now s).1.start_time = s.start_time ∧
      (update_schedule req now s).1.end_time = s.end_time) := by
  refine ⟨?_, ?_, ?_⟩
  · simp only [update_schedule]
    split
    · rw [updateSchedEnd_start, applyEnabled_start]
      exact Or.inl rfl
    · rename_i t heq
      by_cases h : strptimeHM t = true
      · rw [if_pos h, updateSchedEnd_start]
        exact Or.inr h
      · rw [if_neg h]
        exact Or.inl (applyEnabled_start req s)
    · exact Or.inl (applyEnabled_start req s)
  · simp only [update_schedule]
    split
    · rcases updateSchedEnd_end_valid req now (applyEnabled req s) with h | h
      · rw [h]
        exact Or.inl (applyEnabled_end req s)
      · exact Or.inr h
    · rename_i t heq
      by_cases h : strptimeHM t = true
      · rw [if_pos h]
        rcases updateSchedEnd_end_valid req now
            { applyEnabled req s with start_time := t } with h2 | h2
        · rw [h2]
          exact Or.inl (applyEnabled_end req s)
        · exact Or.inr h2
      · rw [if_neg h]
        exact Or.inl (applyEnabled_end req s)
    · exact Or.inl (applyEnabled_end req s)
  · intro t h1 h2
    simp only [update_schedule, h1]
    rw [if_neg (by simp [h2])]
    exact ⟨rfl, applyEnabled_start req s, applyEnabled_end req s⟩

/-- Witness for the amended C6: start_time "99:99" is rejected with 400
and the stored start_time stays at its default "23:00". -/
theorem update_schedule_time_validity_witness :
    (update_schedule ⟨none, some (Val.vStr "99:99"), none⟩ "now0"
        schedule_settings0).2 =
      Resp.err400 "Invalid start_time format. Use HH:MM (24-hour)" ∧
    (update_schedule ⟨none, some (Val.vStr "99:99"), none⟩ "now0"
        schedule_settings0).1.start_time = "23:00" := by
  have h := (update_schedule_time_validity
    ⟨none, some (Val.vStr "99:99"), none⟩ "now0"
    schedule_settings0).2.2 "99:99" rfl (by decide)
  exact ⟨h.1, h.2.1⟩

/-- C7: the history read returns the tail of the log capped at 50 rows,
newest first — `history[-50:][::-1]` equals the first 50 entries of the
reversed log, so 120 appended rows yield exactly the last 50 newest
first, and 3 appended rows yield all 3 newest first. -/
theorem get_history_returns_recent_50 (l : List Row) :
    get_history true (Except.ok l) = Except.ok (l.reverse.take 50) := by
  unfold get_history
  rw [if_pos rfl]
  simp only
  rw [List.reverse_drop]
  by_cases h : 50 ≤ l.length
  · rw [show l.length - (l.length - 50) = 50 from by omega]
  · rw [List.take_of_length_le (by simp; omega),
      List.take_of_length_le (by simp; omega)]

/-- C8: an ingest request missing its temperature or humidity field is
rejected with the validation error before any mutation — the server
state (latest reading, HVAC settings, log) is returned unchanged. -/
theorem receive_data_missing_field_rejected (data : IngestReq) (ts : String)
    (ares : Except String Unit) (st : ServerState)
    (h : data.temperature = none ∨ data.humidity = none) :
    receive_data data ts ares st =
      (st, Resp.err400 "Missing temperature or humidity") := by
  unfold receive_data
  rcases h with h | h <;> rw [h] <;> simp [pyGet]

/-- Witness for C8: a reading with humidity missing leaves the initial
state untouched and answers 400. -/
theorem receive_data_missing_field_rejected_witness :
    receive_data ⟨some (Val.vInt 24), none, none⟩ "t" (Except.ok ())
      ⟨latest_data0, hvac_settings0, []⟩ =
      (⟨latest_data0, hvac_settings0, []⟩,
       Resp.err400 "Missing temperature or humidity") :=
  receive_data_missing_field_rejected ⟨some (Val.vInt 24), none, none⟩ "t"
    (Except.ok ()) ⟨latest_data0, hvac_settings0, []⟩ (Or.inr rfl)

/-- C9 counterexample: `get_history` has no exception handler — an error
raised while reading an existing log file propagates out of the handler
(failing the request) instead of degrading to an empty result. -/
theorem history_read_error_propagates :
    get_history true (Except.error "disk read failed") =
      Except.error "disk read failed" ∧
    (Except.error "disk read failed" : Except String (List Row)) ≠
      Except.ok [] := by
  exact ⟨rfl, by simp⟩

/-- C9 (amended): only the file-absent case degrades to an empty
history; an error raised while reading an existing log propagates and
fails the request (there is no try/except in the handler). -/
theorem get_history_error_cases :
    (∀ r : Except String (List Row), get_history false r = Except.ok []) ∧
    (∀ e : String, get_history true (Except.error e) =
      (Except.error e : Except String (List Row))) :=
  ⟨fun _ => rfl, fun _ => rfl⟩

/-- C10: when the CSV append raises during ingest of a valid reading,
the caller gets the 500 error, yet the latest-reading slot already holds
the new reading, any accompanying snapshot is already applied to the
HVAC settings, and nothing was appended to the log — the in-memory
update precedes the append and is not rolled back. -/
theorem receive_data_failed_append_state_updated (data : IngestReq)
    (ts : String) (e : String) (st : ServerState)
    (hv : (pyGet data.temperature == Val.vNull ||
           pyGet data.humidity == Val.vNull) = false) :
    (receive_data data ts (Except.error e) st).2 = Resp.err500 e ∧
    (receive_data data ts (Except.error e) st).1.latest =
      ⟨pyGet data.temperature, pyGet data.humidity, Val.vStr ts⟩ ∧
    (receive_data data ts (Except.error e) st).1.log = st.log ∧
    (∀ h : HvacSnap, data.hvac = some h →
      (receive_data data ts (Except.error e) st).1.hvac =
        applySnapshot h ts st.hvac) ∧
    (data.hvac = none →
      (receive_data data ts (Except.error e) st).1.hvac = st.hvac) := by
  simp only [receive_data, hv, Bool.false_eq_true, if_false]
  refine ⟨trivial, trivial, trivial, ?_, ?_⟩
  · intro h hh
    rw [hh]
  · intro hh
    rw [hh]

/-- Witness for C10: a concrete failed append answers 500 while the
latest slot holds the new reading and the log is unchanged. -/
theorem receive_data_failed_append_state_updated_witness :
    (receive_data ⟨some (Val.vInt 24), some (Val.vInt 50),
        some ⟨some (Val.vStr "on"), some (Val.vInt 22), none, none, none,
          none⟩⟩ "t3" (Except.error "disk full")
      ⟨latest_data0, hvac_settings0, []⟩).2 = Resp.err500 "disk full" ∧
    (receive_data ⟨some (Val.vInt 24), some (Val.vInt 50),
        some ⟨some (Val.vStr "on"), some (Val.vInt 22), none, none, none,
          none⟩⟩ "t3" (Except.error "disk full")
      ⟨latest_data0, hvac_settings0, []⟩).1.latest =
      ⟨Val.vInt 24, Val.vInt 50, Val.vStr "t3"⟩ ∧
    (receive_data ⟨some (Val.vInt 24), some (Val.vInt 50),
        some ⟨some (Val.vStr "on"), some (Val.vInt 22), none, none, none,
          none⟩⟩ "t3" (Except.error "disk full")
      ⟨latest_data0, hvac_settings0, []⟩).1.log = [] := by
  have h := receive_data_failed_append_state_updated
    ⟨some (Val.vInt 24), some (Val.vInt 50),
      some ⟨some (Val.vStr "on"), some (Val.vInt 22), none, none, none,
        none⟩⟩ "t3" "disk full" ⟨latest_data0, hvac_settings0, []⟩
    (by decide)
  exact ⟨h.1, h.2.1, h.2.2.1⟩
